import Mathlib

/-!
# Lightbox navigation of `GallerySection.jsx`

A shallow embedding of the state held by the `GallerySection` component
(`src/components/about/gallery-section/GallerySection.jsx`) and of its event
handlers, followed by the properties of the navigation / gesture state machine.

Modelling conventions.

* The five `useState` cells and `document.body.style.overflow` form one record
  `State`; every handler is a function `State → State`.  The state setters a
  handler calls are applied in the order of the calls, functional updates
  (`setCurrentImageIndex((prev) => ...)`) reading the value left by the
  previous one.
* JavaScript `null` is `none`.  Pixel coordinates (`clientX`) and the image
  index are integers (`Int`); the index is an `Int` and not a `Nat` because
  `prev - 1` and `length - 1` may be negative.
* `!x` on a number-or-null is JavaScript falsiness: `null` and `0` are falsy.
* Post identifiers (`_id`) are strings and never `null`.
-/

namespace GallerySection

/-- Post identifier, the `_id` field of a gallery post. -/
abbrev PostId := String

/-- Gallery post as consumed by the component: `_id`, `title`, `imageUrls`. -/
structure Post where
  _id : PostId
  title : String
  imageUrls : List String
  deriving DecidableEq, Repr

/-- Component state: the `useState` cells of lines 11-15 and the inline style
`document.body.style.overflow` written by lines 22 and 28. -/
structure State where
  selectedPostId : Option PostId
  currentImageIndex : Int
  touchStart : Option Int
  touchEnd : Option Int
  dragX : Int
  overflow : String
  deriving DecidableEq, Repr

/-- State after mount: the initial values of the `useState` calls; the inline
`overflow` style of the body has not been written yet. -/
def initialState : State :=
  { selectedPostId := none
    currentImageIndex := 0
    touchStart := none
    touchEnd := none
    dragX := 0
    overflow := "" }

/-- JavaScript truthiness of a value that is a number or `null`:
`null` and `0` are falsy, every other number is truthy. -/
def truthy : Option Int → Bool
  | none => false
  | some x => x != 0

/-- Lines 19-23: `openLightbox(postId)`. -/
def openLightbox (postId : PostId) (s : State) : State :=
  { s with selectedPostId := some postId, currentImageIndex := 0, overflow := "hidden" }

/-- Lines 25-29: `closeLightbox()`. -/
def closeLightbox (s : State) : State :=
  { s with selectedPostId := none, currentImageIndex := 0, overflow := "unset" }

/-- Line 31: `posts?.find((p) => p._id === selectedPostId)`.  `posts` is `none`
while the fetch hook has delivered no data. -/
def selectedPost (posts : Option (List Post)) (selectedPostId : Option PostId) : Option Post :=
  match posts with
  | none => none
  | some ps => ps.find? (fun p => decide (some p._id = selectedPostId))

/-- Line 32: `selectedPost && selectedPost.imageUrls.length > 1`. -/
def hasMultipleImages (posts : Option (List Post)) (s : State) : Bool :=
  match selectedPost posts s.selectedPostId with
  | none => false
  | some p => decide (p.imageUrls.length > 1)

/-- Lines 34-40: `nextImage()`. -/
def nextImage (posts : Option (List Post)) (s : State) : State :=
  match selectedPost posts s.selectedPostId with
  | some p =>
    { s with currentImageIndex :=
        if s.currentImageIndex = (p.imageUrls.length : Int) - 1 then 0
        else s.currentImageIndex + 1 }
  | none => s

/-- Lines 42-48: `prevImage()`. -/
def prevImage (posts : Option (List Post)) (s : State) : State :=
  match selectedPost posts s.selectedPostId with
  | some p =>
    { s with currentImageIndex :=
        if s.currentImageIndex = 0 then (p.imageUrls.length : Int) - 1
        else s.currentImageIndex - 1 }
  | none => s

/-- Lines 50-52: `handleTouchStart(e)` with `clientX = e.targetTouches[0].clientX`. -/
def handleTouchStart (clientX : Int) (s : State) : State :=
  { s with touchStart := some clientX }

/-- Lines 54-59: `handleTouchMove(e)`.  `touchStart` is the value of the render
the handler belongs to, that is the one in `s`. -/
def handleTouchMove (clientX : Int) (s : State) : State :=
  let s1 := { s with touchEnd := some clientX }
  if truthy s.touchStart then { s1 with dragX := clientX - s.touchStart.getD 0 } else s1

/-- Lines 61-74: `handleTouchEnd()`.  Past the guard of line 62 both
coordinates are numbers, so `getD` never falls back to its default. -/
def handleTouchEnd (posts : Option (List Post)) (s : State) : State :=
  if !truthy s.touchStart || !truthy s.touchEnd then s
  else
    let distance := s.touchStart.getD 0 - s.touchEnd.getD 0
    let isLeftSwipe := decide (distance > 50)
    let isRightSwipe := decide (distance < -50)
    let s1 := if isLeftSwipe then nextImage posts s else s
    let s2 := if isRightSwipe then prevImage posts s1 else s1
    { s2 with touchStart := none, touchEnd := none, dragX := 0 }

/-- Lines 78-84: `handleKeyboard(e)` with `key = e.key`.  The effect re-binds
the listener whenever `selectedPostId` or `selectedPost` changes, so the
handler always sees the current values. -/
def handleKeyboard (posts : Option (List Post)) (key : String) (s : State) : State :=
  if s.selectedPostId ≠ none then
    let s1 := if key = "ArrowRight" then nextImage posts s else s
    let s2 := if key = "ArrowLeft" then prevImage posts s1 else s1
    if key = "Escape" then closeLightbox s2 else s2
  else s

/-- Lines 266-278: click on the dot indicator number `index`.  The dots are the
images of the selected post, so the click exists only for `index` below the
number of images; a click on a dot that is not there changes nothing.  (The
component draws the dots only for a post with several images; the dot of a
one-image post is admitted here as well, which only adds behaviours.) -/
def goTo (posts : Option (List Post)) (index : Nat) (s : State) : State :=
  match selectedPost posts s.selectedPostId with
  | some p =>
    if index < p.imageUrls.length then { s with currentImageIndex := (index : Int) } else s
  | none => s

/-- User inputs of the component. -/
inductive Event where
  | openLightbox (postId : PostId)
  | closeLightbox
  | nextImage
  | prevImage
  | goTo (index : Nat)
  | touchStart (clientX : Int)
  | touchMove (clientX : Int)
  | touchEnd
  | keydown (key : String)
  deriving DecidableEq, Repr

/-- One input handled to completion. -/
def step (posts : Option (List Post)) (s : State) : Event → State
  | .openLightbox postId => openLightbox postId s
  | .closeLightbox => closeLightbox s
  | .nextImage => nextImage posts s
  | .prevImage => prevImage posts s
  | .goTo index => goTo posts index s
  | .touchStart clientX => handleTouchStart clientX s
  | .touchMove clientX => handleTouchMove clientX s
  | .touchEnd => handleTouchEnd posts s
  | .keydown key => handleKeyboard posts key s

/-- State after a sequence of inputs, handled one after the other. -/
def run (posts : Option (List Post)) (s : State) (events : List Event) : State :=
  events.foldl (step posts) s

/-- Index validity: when the selected identifier names a post of the list, the
current index is a position of that post's images. -/
def IndexValid (posts : Option (List Post)) (s : State) : Prop :=
  ∀ p, selectedPost posts s.selectedPostId = some p →
    0 ≤ s.currentImageIndex ∧ s.currentImageIndex < (p.imageUrls.length : Int)

/-- Three-image post used in the examples. -/
def abcPost : Post := { _id := "p1", title := "abc", imageUrls := ["a", "b", "c"] }

/-- Post without images. -/
def emptyPost : Post := { _id := "p0", title := "empty", imageUrls := [] }

/-- Lightbox open on `abcPost` at image `i`, no gesture in progress. -/
def abcState (i : Int) : State :=
  { selectedPostId := some "p1"
    currentImageIndex := i
    touchStart := none
    touchEnd := none
    dragX := 0
    overflow := "hidden" }

/-- Lightbox open on `emptyPost` at index `i`, no gesture in progress. -/
def emptyState (i : Int) : State :=
  { selectedPostId := some "p0"
    currentImageIndex := i
    touchStart := none
    touchEnd := none
    dragX := 0
    overflow := "hidden" }

/-- State whose selected identifier names no post of `[abcPost]`. -/
def strayState : State :=
  { selectedPostId := some "gone"
    currentImageIndex := 2
    touchStart := none
    touchEnd := none
    dragX := 0
    overflow := "hidden" }

/-- Open lightbox on `abcPost` after a touch-start at 100 with no touch-move:
the state in which the finger is lifted at the end of a tap. -/
def tapState : State :=
  run (some [abcPost]) initialState [.openLightbox "p1", .touchStart 100]

/-- Open lightbox on `abcPost` after a touch-start at 100 and a touch-move to
the left edge of the viewport, `clientX = 0`. -/
def edgeSwipeState : State :=
  run (some [abcPost]) initialState [.openLightbox "p1", .touchStart 100, .touchMove 0]

/-- Open lightbox on `abcPost` after a touch-start at 200 and a touch-move to 130. -/
def leftSwipeState : State :=
  run (some [abcPost]) initialState [.openLightbox "p1", .touchStart 200, .touchMove 130]

/-- Inputs of a drag from 300 to 200 on the open lightbox that the browser
cancels (`touchcancel`, for which the component has no handler): no touch-end
is delivered. -/
def cancelledDrag : List Event :=
  [.openLightbox "p1", .touchStart 300, .touchMove 200]

/-- Inputs of a gesture that starts at the left edge, `clientX = 0`, moves to
200 and ends. -/
def edgeDrag : List Event :=
  [.openLightbox "p1", .touchStart 0, .touchMove 200, .touchEnd]

/-- Reference definition from the specification, section 4.2:
`next()` is `(currentImageIndex + 1) mod length`. -/
def specNext (length : Int) (i : Int) : Int := (i + 1) % length

/-- Reference definition from the specification, section 4.2:
`prev()` is `(currentImageIndex - 1 + length) mod length`. -/
def specPrev (length : Int) (i : Int) : Int := (i - 1 + length) % length

/-! ## Basic facts about the handlers -/

theorem selectedPost_none (posts : Option (List Post)) : selectedPost posts none = none := by
  cases posts with
  | none => rfl
  | some ps => simp [selectedPost]

theorem selectedPost_mem {ps : List Post} {id : Option PostId} {p : Post}
    (h : selectedPost (some ps) id = some p) : p ∈ ps := by
  simp only [selectedPost] at h
  exact List.mem_of_find?_eq_some h

theorem nextImage_of_selected {posts : Option (List Post)} {s : State} {p : Post}
    (h : selectedPost posts s.selectedPostId = some p) :
    nextImage posts s = { s with currentImageIndex :=
      if s.currentImageIndex = (p.imageUrls.length : Int) - 1 then 0
      else s.currentImageIndex + 1 } := by
  simp [nextImage, h]

theorem prevImage_of_selected {posts : Option (List Post)} {s : State} {p : Post}
    (h : selectedPost posts s.selectedPostId = some p) :
    prevImage posts s = { s with currentImageIndex :=
      if s.currentImageIndex = 0 then (p.imageUrls.length : Int) - 1
      else s.currentImageIndex - 1 } := by
  simp [prevImage, h]

theorem nextImage_of_not_selected {posts : Option (List Post)} {s : State}
    (h : selectedPost posts s.selectedPostId = none) : nextImage posts s = s := by
  simp [nextImage, h]

theorem prevImage_of_not_selected {posts : Option (List Post)} {s : State}
    (h : selectedPost posts s.selectedPostId = none) : prevImage posts s = s := by
  simp [prevImage, h]

theorem nextImage_selectedPostId (posts : Option (List Post)) (s : State) :
    (nextImage posts s).selectedPostId = s.selectedPostId := by
  unfold nextImage; split <;> rfl

theorem prevImage_selectedPostId (posts : Option (List Post)) (s : State) :
    (prevImage posts s).selectedPostId = s.selectedPostId := by
  unfold prevImage; split <;> rfl

/-- The conditional of `nextImage` is the successor modulo the length. -/
theorem next_cond_eq_mod (n i : Int) (h0 : 0 ≤ i) (h1 : i < n) :
    (if i = n - 1 then 0 else i + 1) = (i + 1) % n := by
  split
  · next h => subst h; simp
  · next h =>
    rw [Int.emod_eq_of_lt (by omega) (by omega)]

/-- The conditional of `prevImage` is the predecessor modulo the length. -/
theorem prev_cond_eq_mod (n i : Int) (h0 : 0 ≤ i) (h1 : i < n) :
    (if i = 0 then n - 1 else i - 1) = (i - 1 + n) % n := by
  split
  · next h => subst h; rw [Int.emod_eq_of_lt (by omega) (by omega)]; omega
  · next h =>
    rw [Int.add_emod_self, Int.emod_eq_of_lt (by omega) (by omega)]

/-- After `k` applications of `nextImage` the index has advanced by `k` modulo
the length, and nothing else has changed. -/
theorem nextImage_iterate {posts : Option (List Post)} {p : Post} (k : Nat) (s : State)
    (hsel : selectedPost posts s.selectedPostId = some p)
    (h0 : 0 ≤ s.currentImageIndex)
    (h1 : s.currentImageIndex < (p.imageUrls.length : Int)) :
    (nextImage posts)^[k] s =
      { s with currentImageIndex := (s.currentImageIndex + (k : Int)) % (p.imageUrls.length : Int) } := by
  have hpos : (0 : Int) < (p.imageUrls.length : Int) := by omega
  induction k with
  | zero =>
    simp only [Function.iterate_zero, id_eq, Nat.cast_zero, add_zero]
    rw [Int.emod_eq_of_lt h0 h1]
  | succ k ih =>
    rw [Function.iterate_succ_apply', ih]
    rw [nextImage_of_selected (p := p) (by simpa using hsel)]
    simp only
    rw [next_cond_eq_mod _ _ (Int.emod_nonneg _ (by omega)) (Int.emod_lt_of_pos _ hpos)]
    rw [Int.emod_add_emod]
    push_cast
    rw [add_assoc]

theorem nextImage_overflow (posts : Option (List Post)) (s : State) :
    (nextImage posts s).overflow = s.overflow := by
  unfold nextImage; split <;> rfl

theorem prevImage_overflow (posts : Option (List Post)) (s : State) :
    (prevImage posts s).overflow = s.overflow := by
  unfold prevImage; split <;> rfl

theorem goTo_selectedPostId (posts : Option (List Post)) (index : Nat) (s : State) :
    (goTo posts index s).selectedPostId = s.selectedPostId := by
  unfold goTo; split
  · split <;> rfl
  · rfl

theorem goTo_overflow (posts : Option (List Post)) (index : Nat) (s : State) :
    (goTo posts index s).overflow = s.overflow := by
  unfold goTo; split
  · split <;> rfl
  · rfl

theorem handleTouchMove_selectedPostId (clientX : Int) (s : State) :
    (handleTouchMove clientX s).selectedPostId = s.selectedPostId := by
  unfold handleTouchMove; simp only; split <;> rfl

theorem handleTouchMove_overflow (clientX : Int) (s : State) :
    (handleTouchMove clientX s).overflow = s.overflow := by
  unfold handleTouchMove; simp only; split <;> rfl

theorem handleTouchMove_currentImageIndex (clientX : Int) (s : State) :
    (handleTouchMove clientX s).currentImageIndex = s.currentImageIndex := by
  unfold handleTouchMove; simp only; split <;> rfl

theorem handleTouchEnd_selectedPostId (posts : Option (List Post)) (s : State) :
    (handleTouchEnd posts s).selectedPostId = s.selectedPostId := by
  unfold handleTouchEnd
  split
  · rfl
  · simp only
    split_ifs <;> simp [nextImage_selectedPostId, prevImage_selectedPostId]

theorem handleTouchEnd_overflow (posts : Option (List Post)) (s : State) :
    (handleTouchEnd posts s).overflow = s.overflow := by
  unfold handleTouchEnd
  split
  · rfl
  · simp only
    split_ifs <;> simp [nextImage_overflow, prevImage_overflow]

/-- The invariant of the scroll lock: the body is locked exactly while a post
identifier is selected. -/
theorem scrollLock_congr {s t : State} (h1 : t.overflow = s.overflow)
    (h2 : t.selectedPostId = s.selectedPostId)
    (h : s.overflow = "hidden" ↔ s.selectedPostId ≠ none) :
    t.overflow = "hidden" ↔ t.selectedPostId ≠ none := by
  rw [h1, h2]; exact h

theorem scrollLock_closeLightbox (s : State) :
    (closeLightbox s).overflow = "hidden" ↔ (closeLightbox s).selectedPostId ≠ none := by
  simp [closeLightbox]

theorem scrollLock_handleKeyboard (posts : Option (List Post)) (key : String) (s : State)
    (h : s.overflow = "hidden" ↔ s.selectedPostId ≠ none) :
    (handleKeyboard posts key s).overflow = "hidden" ↔
      (handleKeyboard posts key s).selectedPostId ≠ none := by
  unfold handleKeyboard
  split
  · simp only
    split
    · exact scrollLock_closeLightbox _
    · split_ifs <;>
        (try simp only [nextImage_overflow, prevImage_overflow, nextImage_selectedPostId,
          prevImage_selectedPostId]) <;> exact h
  · exact h

theorem scrollLock_step (posts : Option (List Post)) (s : State) (e : Event)
    (h : s.overflow = "hidden" ↔ s.selectedPostId ≠ none) :
    (step posts s e).overflow = "hidden" ↔ (step posts s e).selectedPostId ≠ none := by
  cases e with
  | openLightbox postId => simp [step, openLightbox]
  | closeLightbox => exact scrollLock_closeLightbox s
  | nextImage =>
    exact scrollLock_congr (nextImage_overflow posts s) (nextImage_selectedPostId posts s) h
  | prevImage =>
    exact scrollLock_congr (prevImage_overflow posts s) (prevImage_selectedPostId posts s) h
  | goTo index =>
    exact scrollLock_congr (goTo_overflow posts index s) (goTo_selectedPostId posts index s) h
  | touchStart clientX => exact h
  | touchMove clientX =>
    exact scrollLock_congr (handleTouchMove_overflow clientX s)
      (handleTouchMove_selectedPostId clientX s) h
  | touchEnd =>
    exact scrollLock_congr (handleTouchEnd_overflow posts s)
      (handleTouchEnd_selectedPostId posts s) h
  | keydown key => exact scrollLock_handleKeyboard posts key s h

theorem scrollLock_run (posts : Option (List Post)) (events : List Event) (s : State)
    (h : s.overflow = "hidden" ↔ s.selectedPostId ≠ none) :
    (run posts s events).overflow = "hidden" ↔ (run posts s events).selectedPostId ≠ none := by
  induction events generalizing s with
  | nil => exact h
  | cons e es ih => exact ih (step posts s e) (scrollLock_step posts s e h)

theorem run_append (posts : Option (List Post)) (s : State) (es fs : List Event) :
    run posts s (es ++ fs) = run posts (run posts s es) fs := by
  simp [run, List.foldl_append]

/-! ## Preservation of index validity -/

theorem IndexValid_congr {posts : Option (List Post)} {s t : State}
    (h1 : t.selectedPostId = s.selectedPostId)
    (h2 : t.currentImageIndex = s.currentImageIndex)
    (h : IndexValid posts s) : IndexValid posts t := by
  intro p hp
  rw [h1] at hp
  rw [h2]
  exact h p hp

theorem IndexValid_closeLightbox (posts : Option (List Post)) (s : State) :
    IndexValid posts (closeLightbox s) := by
  intro p hp
  simp [closeLightbox, selectedPost_none] at hp

theorem IndexValid_nextImage {posts : Option (List Post)} {s : State}
    (h : IndexValid posts s) : IndexValid posts (nextImage posts s) := by
  cases hsel : selectedPost posts s.selectedPostId with
  | none => rw [nextImage_of_not_selected hsel]; exact h
  | some p =>
    rw [nextImage_of_selected hsel]
    intro q hq
    have hqp : q = p := by
      have : selectedPost posts s.selectedPostId = some q := hq
      rw [hsel] at this
      exact (Option.some.inj this).symm
    subst hqp
    have hv := h q hsel
    simp only
    split_ifs <;> omega

theorem IndexValid_prevImage {posts : Option (List Post)} {s : State}
    (h : IndexValid posts s) : IndexValid posts (prevImage posts s) := by
  cases hsel : selectedPost posts s.selectedPostId with
  | none => rw [prevImage_of_not_selected hsel]; exact h
  | some p =>
    rw [prevImage_of_selected hsel]
    intro q hq
    have hqp : q = p := by
      have : selectedPost posts s.selectedPostId = some q := hq
      rw [hsel] at this
      exact (Option.some.inj this).symm
    subst hqp
    have hv := h q hsel
    simp only
    split_ifs <;> omega

theorem IndexValid_goTo {posts : Option (List Post)} {s : State} (index : Nat)
    (h : IndexValid posts s) : IndexValid posts (goTo posts index s) := by
  unfold goTo
  split
  · next p hsel =>
    split
    · next hlt =>
      intro q hq
      have hqp : q = p := by
        have : selectedPost posts s.selectedPostId = some q := hq
        rw [hsel] at this
        exact (Option.some.inj this).symm
      subst hqp
      simp only
      omega
    · exact h
  · exact h

theorem IndexValid_handleTouchEnd {posts : Option (List Post)} {s : State}
    (h : IndexValid posts s) : IndexValid posts (handleTouchEnd posts s) := by
  unfold handleTouchEnd
  split
  · exact h
  · simp only
    have hn := IndexValid_nextImage h
    split_ifs
    · exact IndexValid_congr (s := prevImage posts (nextImage posts s)) rfl rfl
        (IndexValid_prevImage hn)
    · exact IndexValid_congr (s := prevImage posts s) rfl rfl (IndexValid_prevImage h)
    · exact IndexValid_congr (s := nextImage posts s) rfl rfl hn
    · exact IndexValid_congr (s := s) rfl rfl h

theorem IndexValid_handleKeyboard {posts : Option (List Post)} {s : State} (key : String)
    (h : IndexValid posts s) : IndexValid posts (handleKeyboard posts key s) := by
  unfold handleKeyboard
  split
  · simp only
    split
    · exact IndexValid_closeLightbox posts _
    · split_ifs
      · exact IndexValid_prevImage (IndexValid_nextImage h)
      · exact IndexValid_prevImage h
      · exact IndexValid_nextImage h
      · exact h
  · exact h

theorem IndexValid_step {posts : Option (List Post)}
    (hne : ∀ ps, posts = some ps → ∀ p ∈ ps, 1 ≤ p.imageUrls.length)
    (s : State) (e : Event) (h : IndexValid posts s) : IndexValid posts (step posts s e) := by
  cases e with
  | openLightbox postId =>
    intro p hp
    cases posts with
    | none => simp [selectedPost] at hp
    | some ps =>
      have hlen := hne ps rfl p (selectedPost_mem hp)
      simp only [step, openLightbox]
      omega
  | closeLightbox => exact IndexValid_closeLightbox posts s
  | nextImage => exact IndexValid_nextImage h
  | prevImage => exact IndexValid_prevImage h
  | goTo index => exact IndexValid_goTo index h
  | touchStart clientX => exact IndexValid_congr (s := s) rfl rfl h
  | touchMove clientX =>
    exact IndexValid_congr (handleTouchMove_selectedPostId clientX s)
      (handleTouchMove_currentImageIndex clientX s) h
  | touchEnd => exact IndexValid_handleTouchEnd h
  | keydown key => exact IndexValid_handleKeyboard key h

theorem IndexValid_run {posts : Option (List Post)}
    (hne : ∀ ps, posts = some ps → ∀ p ∈ ps, 1 ≤ p.imageUrls.length)
    (events : List Event) (s : State) (h : IndexValid posts s) :
    IndexValid posts (run posts s events) := by
  induction events generalizing s with
  | nil => exact h
  | cons e es ih => exact ih (step posts s e) (IndexValid_step hne s e h)

/-! ## Index navigation -/

/-- C2. Wrap-around round trip: with a selected post `p` and an index `i` with
`0 ≤ i < length` (so `length ≥ 1`), applying `nextImage` exactly `length` times
returns `currentImageIndex` to `i`; in fact the whole state is back. -/
theorem nextImage_round_trip (posts : Option (List Post)) (s : State) (p : Post)
    (hsel : selectedPost posts s.selectedPostId = some p)
    (hlen : 1 ≤ p.imageUrls.length)
    (h0 : 0 ≤ s.currentImageIndex)
    (h1 : s.currentImageIndex < (p.imageUrls.length : Int)) :
    ((nextImage posts)^[p.imageUrls.length] s).currentImageIndex = s.currentImageIndex ∧
    (nextImage posts)^[p.imageUrls.length] s = s := by
  have hpos : (0 : Int) < (p.imageUrls.length : Int) := by omega
  have key : (nextImage posts)^[p.imageUrls.length] s = s := by
    rw [nextImage_iterate p.imageUrls.length s hsel h0 h1, Int.add_emod_self,
      Int.emod_eq_of_lt h0 h1]
  exact ⟨by rw [key], key⟩

theorem nextImage_round_trip_witness :
    ((nextImage (some [abcPost]))^[abcPost.imageUrls.length] (abcState 1)).currentImageIndex
        = (abcState 1).currentImageIndex ∧
    (nextImage (some [abcPost]))^[abcPost.imageUrls.length] (abcState 1) = abcState 1 :=
  nextImage_round_trip (some [abcPost]) (abcState 1) abcPost (by decide) (by decide)
    (by decide) (by decide)

/-- C3. `prevImage` undoes `nextImage`: with a selected post `p` and an index
`i` with `0 ≤ i < length`, `nextImage` followed by `prevImage` yields
`currentImageIndex = i`, and leaves the rest of the state as it was. -/
theorem prevImage_nextImage (posts : Option (List Post)) (s : State) (p : Post)
    (hsel : selectedPost posts s.selectedPostId = some p)
    (hlen : 1 ≤ p.imageUrls.length)
    (h0 : 0 ≤ s.currentImageIndex)
    (h1 : s.currentImageIndex < (p.imageUrls.length : Int)) :
    (prevImage posts (nextImage posts s)).currentImageIndex = s.currentImageIndex ∧
    prevImage posts (nextImage posts s) = s := by
  have key : prevImage posts (nextImage posts s) = s := by
    rw [nextImage_of_selected hsel, prevImage_of_selected (p := p) (by simpa using hsel)]
    cases s with
    | mk sel idx ts te dx ov =>
      simp only [State.mk.injEq, true_and, and_true] at *
      split_ifs <;> omega
  exact ⟨by rw [key], key⟩

theorem prevImage_nextImage_witness :
    (prevImage (some [abcPost]) (nextImage (some [abcPost]) (abcState 2))).currentImageIndex
        = (abcState 2).currentImageIndex ∧
    prevImage (some [abcPost]) (nextImage (some [abcPost]) (abcState 2)) = abcState 2 :=
  prevImage_nextImage (some [abcPost]) (abcState 2) abcPost (by decide) (by decide)
    (by decide) (by decide)

/-- C4. The conditional updates are the modular reference definitions: with a
selected post `p` and an index `i` with `0 ≤ i < length`, `nextImage` sets
`currentImageIndex` to `(i + 1) mod length` and `prevImage` sets it to
`(i - 1 + length) mod length`; both leave every other field alone. -/
theorem nextImage_prevImage_eq_spec (posts : Option (List Post)) (s : State) (p : Post)
    (hsel : selectedPost posts s.selectedPostId = some p)
    (hlen : 1 ≤ p.imageUrls.length)
    (h0 : 0 ≤ s.currentImageIndex)
    (h1 : s.currentImageIndex < (p.imageUrls.length : Int)) :
    nextImage posts s =
      { s with currentImageIndex := specNext p.imageUrls.length s.currentImageIndex } ∧
    prevImage posts s =
      { s with currentImageIndex := specPrev p.imageUrls.length s.currentImageIndex } := by
  have hpos : (0 : Int) < (p.imageUrls.length : Int) := by omega
  constructor
  · rw [nextImage_of_selected hsel, next_cond_eq_mod _ _ h0 h1, specNext]
  · rw [prevImage_of_selected hsel, prev_cond_eq_mod _ _ h0 h1, specPrev]

theorem nextImage_prevImage_eq_spec_witness :
    nextImage (some [abcPost]) (abcState 2) =
      { (abcState 2) with currentImageIndex := specNext 3 2 } ∧
    prevImage (some [abcPost]) (abcState 2) =
      { (abcState 2) with currentImageIndex := specPrev 3 2 } :=
  nextImage_prevImage_eq_spec (some [abcPost]) (abcState 2) abcPost (by decide) (by decide)
    (by decide) (by decide)

/-- C7, as the code has it. With a selected post whose `imageUrls` is empty,
`nextImage` and `prevImage` return a state (nothing is read out of the empty
list) but are not no-ops: for every index `i`, `nextImage` sets
`currentImageIndex` to `i + 1` and `prevImage` sets it to `i - 1`, every other
field staying as it was. -/
theorem navigation_on_empty_post (posts : Option (List Post)) (s : State) (p : Post)
    (hsel : selectedPost posts s.selectedPostId = some p)
    (hempty : p.imageUrls.length = 0) :
    nextImage posts s = { s with currentImageIndex := s.currentImageIndex + 1 } ∧
    prevImage posts s = { s with currentImageIndex := s.currentImageIndex - 1 } := by
  rw [nextImage_of_selected hsel, prevImage_of_selected hsel, hempty]
  constructor
  · congr 1
    split_ifs with h
    · simp only [Nat.cast_zero] at h; omega
    · rfl
  · congr 1
    split_ifs with h
    · simp only [Nat.cast_zero]; omega
    · rfl

theorem navigation_on_empty_post_witness :
    nextImage (some [emptyPost]) (emptyState 0) =
      { (emptyState 0) with currentImageIndex := (emptyState 0).currentImageIndex + 1 } ∧
    prevImage (some [emptyPost]) (emptyState 0) =
      { (emptyState 0) with currentImageIndex := (emptyState 0).currentImageIndex - 1 } :=
  navigation_on_empty_post (some [emptyPost]) (emptyState 0) emptyPost (by decide) (by decide)

/-- C7 fails as stated: the post `emptyPost` is selected and has no images, the
index is 0, and `nextImage` moves the index to 1, `prevImage` moves it to -1. -/
theorem navigation_on_empty_post_not_noop :
    selectedPost (some [emptyPost]) (emptyState 0).selectedPostId = some emptyPost ∧
    emptyPost.imageUrls.length = 0 ∧
    (emptyState 0).currentImageIndex = 0 ∧
    (nextImage (some [emptyPost]) (emptyState 0)).currentImageIndex = 1 ∧
    (prevImage (some [emptyPost]) (emptyState 0)).currentImageIndex = -1 := by
  decide

/-- C8. Navigation while closed is a no-op: in every state with
`selectedPostId = none`, `nextImage`, `prevImage` and `handleKeyboard` for every
key return the state unchanged (so `selectedPostId`, `currentImageIndex` and
`overflow` are unchanged); and `nextImage`, `prevImage` return the state
unchanged whenever `selectedPostId` names no post of the list. -/
theorem navigation_while_closed (posts : Option (List Post)) (s : State) :
    (s.selectedPostId = none →
      nextImage posts s = s ∧ prevImage posts s = s ∧
      ∀ key : String, handleKeyboard posts key s = s) ∧
    (selectedPost posts s.selectedPostId = none →
      nextImage posts s = s ∧ prevImage posts s = s) := by
  refine ⟨fun h => ?_, fun h => ?_⟩
  · have hsel : selectedPost posts s.selectedPostId = none := by
      rw [h]; exact selectedPost_none posts
    refine ⟨nextImage_of_not_selected hsel, prevImage_of_not_selected hsel, fun key => ?_⟩
    simp [handleKeyboard, h]
  · exact ⟨nextImage_of_not_selected h, prevImage_of_not_selected h⟩

theorem navigation_while_closed_witness :
    (nextImage (some [abcPost]) initialState = initialState ∧
      prevImage (some [abcPost]) initialState = initialState ∧
      ∀ key : String, handleKeyboard (some [abcPost]) key initialState = initialState) ∧
    (nextImage (some [abcPost]) strayState = strayState ∧
      prevImage (some [abcPost]) strayState = strayState) :=
  ⟨(navigation_while_closed (some [abcPost]) initialState).1 rfl,
   (navigation_while_closed (some [abcPost]) strayState).2 (by decide)⟩

/-! ## Touch gestures -/

/-- Swipe decision of `handleTouchEnd` when both recorded coordinates are
non-zero: `nextImage` once for a distance above 50, `prevImage` once for a
distance below -50, no navigation otherwise; the gesture record is cleared. -/
theorem handleTouchEnd_nonzero (posts : Option (List Post)) (s : State) (a b : Int)
    (hs : s.touchStart = some a) (he : s.touchEnd = some b) (ha : a ≠ 0) (hb : b ≠ 0) :
    handleTouchEnd posts s =
      { (if a - b > 50 then nextImage posts s
         else if a - b < -50 then prevImage posts s else s) with
        touchStart := none, touchEnd := none, dragX := 0 } := by
  simp only [handleTouchEnd, hs, he, truthy, Option.getD_some]
  by_cases h1 : a - b > 50
  · have h2 : ¬ a - b < -50 := by omega
    simp [ha, hb, h1, h2]
  · by_cases h2 : a - b < -50 <;> simp [ha, hb, h1, h2]

/-- C5 at the failing input. The lightbox is open on a three-image post at
image 0; a touch-start at `clientX = 100` is followed by a touch-move to
`clientX = 0`. The distance is 100, above the threshold, and `nextImage` would
move to image 1, but `handleTouchEnd` takes the early return of line 62 (`0` is
falsy): the index stays 0 and the gesture record is not cleared. -/
theorem handleTouchEnd_edge_swipe_ignored :
    edgeSwipeState.touchStart = some 100 ∧
    edgeSwipeState.touchEnd = some 0 ∧
    (100 : Int) - 0 > 50 ∧
    (nextImage (some [abcPost]) edgeSwipeState).currentImageIndex = 1 ∧
    (handleTouchEnd (some [abcPost]) edgeSwipeState).currentImageIndex = 0 ∧
    handleTouchEnd (some [abcPost]) edgeSwipeState = edgeSwipeState := by
  decide

/-- C6, as the code has it. When `touchStart` and `touchEnd` both hold a
non-zero coordinate, `handleTouchEnd` leaves `touchStart = none`,
`touchEnd = none` and `dragX = 0`, whichever swipe branch is taken; when
`touchStart` or `touchEnd` is `none`, the guard of line 62 returns first and the
state, gesture record included, is left as it was. -/
theorem handleTouchEnd_resets (posts : Option (List Post)) (s : State) :
    (∀ a b : Int, s.touchStart = some a → s.touchEnd = some b → a ≠ 0 → b ≠ 0 →
      (handleTouchEnd posts s).touchStart = none ∧
      (handleTouchEnd posts s).touchEnd = none ∧
      (handleTouchEnd posts s).dragX = 0) ∧
    (s.touchStart = none ∨ s.touchEnd = none → handleTouchEnd posts s = s) := by
  refine ⟨fun a b hs he ha hb => ?_, fun h => ?_⟩
  · rw [handleTouchEnd_nonzero posts s a b hs he ha hb]
    exact ⟨rfl, rfl, rfl⟩
  · rcases h with h | h <;> simp [handleTouchEnd, h, truthy]

theorem handleTouchEnd_resets_witness :
    ((handleTouchEnd (some [abcPost]) leftSwipeState).touchStart = none ∧
      (handleTouchEnd (some [abcPost]) leftSwipeState).touchEnd = none ∧
      (handleTouchEnd (some [abcPost]) leftSwipeState).dragX = 0) ∧
    handleTouchEnd (some [abcPost]) tapState = tapState :=
  ⟨(handleTouchEnd_resets (some [abcPost]) leftSwipeState).1 200 130
      (by decide) (by decide) (by decide) (by decide),
   (handleTouchEnd_resets (some [abcPost]) tapState).2 (Or.inr (by decide))⟩

/-- C6 fails as stated: at the end of a tap (touch-start at 100, no touch-move)
`touchEnd` is `none`, `handleTouchEnd` returns at the guard and `touchStart`
still holds 100 afterwards. -/
theorem handleTouchEnd_keeps_record_on_tap :
    tapState.touchStart = some 100 ∧
    tapState.touchEnd = none ∧
    (handleTouchEnd (some [abcPost]) tapState).touchStart = some 100 ∧
    (handleTouchEnd (some [abcPost]) tapState).touchStart ≠ none := by
  decide

/-- C10 at the failing inputs. On a three-image post, a tap (touch-start at 300
followed at once by touch-end) moves the index from 0 to 1 in two reachable
states: after a drag from 300 to 200 for which no touch-end arrived, and after
a completed gesture that started at `clientX = 0` (its touch-end returned at
the guard and left `touchEnd = 200` behind). `handleTouchStart` does not clear
`touchEnd`, so the tap is measured against the stale coordinate. -/
theorem tap_navigates_with_stale_touchEnd :
    (run (some [abcPost]) initialState cancelledDrag).currentImageIndex = 0 ∧
    (run (some [abcPost]) initialState
      (cancelledDrag ++ [.touchStart 300, .touchEnd])).currentImageIndex = 1 ∧
    (run (some [abcPost]) initialState edgeDrag).currentImageIndex = 0 ∧
    (run (some [abcPost]) initialState edgeDrag).touchEnd = some 200 ∧
    (run (some [abcPost]) initialState
      (edgeDrag ++ [.touchStart 300, .touchEnd])).currentImageIndex = 1 := by
  decide

/-! ## Index validity -/

/-- C1. Index validity invariant: for a post list in which every post has at
least one image, in every state reached from the initial state by any sequence
of inputs (open, close, next, previous, dot click on an existing dot, touch
start / move / end with any coordinates, any key), whenever `selectedPostId`
names a post `p` of the list, `0 ≤ currentImageIndex < p.imageUrls.length`. -/
theorem index_valid_reachable (posts : Option (List Post))
    (hne : ∀ ps, posts = some ps → ∀ p ∈ ps, 1 ≤ p.imageUrls.length)
    (events : List Event) (p : Post)
    (hsel : selectedPost posts (run posts initialState events).selectedPostId = some p) :
    0 ≤ (run posts initialState events).currentImageIndex ∧
    (run posts initialState events).currentImageIndex < (p.imageUrls.length : Int) := by
  have hinit : IndexValid posts initialState := by
    intro q hq
    simp [initialState, selectedPost_none] at hq
  exact IndexValid_run hne events initialState hinit p hsel

theorem index_valid_reachable_witness :
    0 ≤ (run (some [abcPost]) initialState
      [.openLightbox "p1", .prevImage, .keydown "ArrowRight", .goTo 2,
       .touchStart 200, .touchMove 130, .touchEnd]).currentImageIndex ∧
    (run (some [abcPost]) initialState
      [.openLightbox "p1", .prevImage, .keydown "ArrowRight", .goTo 2,
       .touchStart 200, .touchMove 130, .touchEnd]).currentImageIndex
      < (abcPost.imageUrls.length : Int) :=
  index_valid_reachable (some [abcPost]) (by simp [abcPost])
    [.openLightbox "p1", .prevImage, .keydown "ArrowRight", .goTo 2,
     .touchStart 200, .touchMove 130, .touchEnd] abcPost (by decide)

/-! ## Scroll lock -/

/-- C9. The scroll lock tracks the session: in every state reached from the
initial state by any sequence of inputs (open, close, next, previous, dot click,
touch start / move / end, any key), `overflow = "hidden"` if and only if
`selectedPostId` is not `none`; and from every such state each close path, the
close button or backdrop (`closeLightbox`) and the Escape key, leaves the
session closed and the body unlocked. -/
theorem scroll_lock_tracks_session (posts : Option (List Post)) (events : List Event) :
    ((run posts initialState events).overflow = "hidden" ↔
      (run posts initialState events).selectedPostId ≠ none) ∧
    ((run posts initialState (events ++ [.closeLightbox])).selectedPostId = none ∧
      (run posts initialState (events ++ [.closeLightbox])).overflow ≠ "hidden") ∧
    ((run posts initialState (events ++ [.keydown "Escape"])).selectedPostId = none ∧
      (run posts initialState (events ++ [.keydown "Escape"])).overflow ≠ "hidden") := by
  have hinit : initialState.overflow = "hidden" ↔ initialState.selectedPostId ≠ none := by
    simp [initialState]
  have hinv := scrollLock_run posts events initialState hinit
  refine ⟨hinv, ?_, ?_⟩
  · rw [run_append]
    simp [run, step, closeLightbox]
  · have hsel : (run posts initialState (events ++ [.keydown "Escape"])).selectedPostId
        = none := by
      rw [run_append]
      simp only [run, List.foldl_cons, List.foldl_nil, step, handleKeyboard]
      split
      · simp [closeLightbox]
      · next hn => simpa using hn
    have h2 := scrollLock_run posts (events ++ [.keydown "Escape"]) initialState hinit
    refine ⟨hsel, fun hov => ?_⟩
    exact (h2.mp hov) hsel

end GallerySection
